import Mathlib

/-!
# The `fayec` client facade (`client.go`)

A shallow embedding of `client.go`: the `options` record, the four `Option`
constructors, `NewClient` and the forwarding methods of `Client`.

The transport is an interface declared outside `client.go`.  It is taken as a
parameter: a record of state-passing functions over a transport state `σ`.
Every interface-method call the client makes is written to a ghost log
(`World.trace`), so that "which transport calls happened, in which order, with
which arguments" is an ordinary value.  Transports range over non-nil interface
values.  `OnPublishResponse` and `OnTransportError` only hand a callback to the
transport and are left out.
-/

/-- Go `error` interface value: `none` is `nil`, `some e` is a non-nil error. -/
abbrev error (ε : Type) := Option ε

/-- Go pointer that may be `nil` (`*Client`, `*subscription.Subscription`). -/
abbrev Ptr (α : Type) := Option α

namespace message

/-- The `message.Extensions` record held by the transport options: the incoming
and the outgoing extension slices.  `Ext` stands for `message.Extension`. -/
structure Extensions (Ext : Type) where
  In : List Ext
  Out : List Ext
  deriving DecidableEq

end message

namespace transport

/-- The part of `transport.Options` that `client.go` reads or writes
(`o.tOpts.Extensions`). -/
structure Options (Ext : Type) where
  Extensions : message.Extensions Ext
  deriving DecidableEq

/-- One entry of the ghost log: an interface-method call with its arguments. -/
inductive Call (Ext Data : Type) where
  | Init (url : String) (options : Options Ext)
  | Handshake
  | Connect
  | Disconnect
  | Subscribe (channel : String)
  | Publish (subscription : String) (data : Data)
  deriving DecidableEq

/-- The methods of `transport.Transport` that `client.go` calls on
`c.opts.transport`, as state-passing functions.  `Init` receives a pointer to
the options, so it also returns the options it leaves behind.  That pointer is
`&c.opts.tOpts` of the very struct `NewClient` returns, and a transport may keep
it: `SubscribeOptions channel o s` is what a `Subscribe(channel)` call, made in
transport state `s` while the pointed-to options hold `o`, leaves in them (`o`
itself for a transport that does not write through the pointer). -/
structure Transport (σ ε Ext Data Sub : Type) where
  Init : String → Options Ext → σ → error ε × Options Ext × σ
  Handshake : σ → error ε × σ
  Connect : σ → error ε × σ
  Disconnect : σ → error ε × σ
  Subscribe : String → σ → (Ptr Sub × error ε) × σ
  Publish : String → Data → σ → (String × error ε) × σ
  SubscribeOptions : String → Options Ext → σ → Options Ext := fun _ o _ => o

/-- What the client runs against: the log of calls made so far and the state of
the transport. -/
structure World (σ Ext Data : Type) where
  trace : List (Call Ext Data)
  st : σ

variable {σ ε Ext Data Sub : Type}

/-- The call `t.Init(url, &tOpts)`. -/
def Transport.callInit (t : Transport σ ε Ext Data Sub) (url : String) (tOpts : Options Ext)
    (w : World σ Ext Data) : error ε × Options Ext × World σ Ext Data :=
  let r := t.Init url tOpts w.st
  (r.1, r.2.1, ⟨w.trace ++ [Call.Init url tOpts], r.2.2⟩)

/-- The call `t.Handshake()`. -/
def Transport.callHandshake (t : Transport σ ε Ext Data Sub)
    (w : World σ Ext Data) : error ε × World σ Ext Data :=
  let r := t.Handshake w.st
  (r.1, ⟨w.trace ++ [Call.Handshake], r.2⟩)

/-- The call `t.Connect()`. -/
def Transport.callConnect (t : Transport σ ε Ext Data Sub)
    (w : World σ Ext Data) : error ε × World σ Ext Data :=
  let r := t.Connect w.st
  (r.1, ⟨w.trace ++ [Call.Connect], r.2⟩)

/-- The call `t.Disconnect()`. -/
def Transport.callDisconnect (t : Transport σ ε Ext Data Sub)
    (w : World σ Ext Data) : error ε × World σ Ext Data :=
  let r := t.Disconnect w.st
  (r.1, ⟨w.trace ++ [Call.Disconnect], r.2⟩)

/-- The call `t.Subscribe(channel)`. -/
def Transport.callSubscribe (t : Transport σ ε Ext Data Sub) (channel : String)
    (w : World σ Ext Data) : (Ptr Sub × error ε) × World σ Ext Data :=
  let r := t.Subscribe channel w.st
  (r.1, ⟨w.trace ++ [Call.Subscribe channel], r.2⟩)

/-- The call `t.Publish(subscription, data)`. -/
def Transport.callPublish (t : Transport σ ε Ext Data Sub) (subscription : String) (data : Data)
    (w : World σ Ext Data) : (String × error ε) × World σ Ext Data :=
  let r := t.Publish subscription data w.st
  (r.1, ⟨w.trace ++ [Call.Publish subscription data], r.2⟩)

end transport

namespace fayec

open transport

variable {σ ε Ext Data Sub : Type}

/-- The `options` struct. -/
structure options (σ ε Ext Data Sub : Type) where
  transport : Transport σ ε Ext Data Sub
  tOpts : Options Ext

/-- The package variable `defaultOpts`.  `websocket` is the value of
`transport.GetTransport("websocket")`; `tOpts` is the zero value. -/
def defaultOpts (websocket : Transport σ ε Ext Data Sub) : options σ ε Ext Data Sub :=
  { transport := websocket, tOpts := { Extensions := { In := [], Out := [] } } }

/-- The type `Option func(*options)`: the effect of the function on the
pointed-to record. -/
def Option (σ ε Ext Data Sub : Type) : Type :=
  options σ ε Ext Data Sub → options σ ε Ext Data Sub

/-- The `Client` struct. -/
structure Client (σ ε Ext Data Sub : Type) where
  opts : options σ ε Ext Data Sub

/-- `WithOutExtension`: `o.tOpts.Extensions.Out = append(o.tOpts.Extensions.Out, extension)`. -/
def WithOutExtension (extension : Ext) : Option σ ε Ext Data Sub :=
  fun o => { o with tOpts.Extensions.Out := o.tOpts.Extensions.Out ++ [extension] }

/-- `WithExtension`: appends `inExt` to `In`, then `outExt` to `Out`. -/
def WithExtension (inExt : Ext) (outExt : Ext) : Option σ ε Ext Data Sub :=
  fun o =>
    let o1 : options σ ε Ext Data Sub :=
      { o with tOpts.Extensions.In := o.tOpts.Extensions.In ++ [inExt] }
    { o1 with tOpts.Extensions.Out := o1.tOpts.Extensions.Out ++ [outExt] }

/-- `WithInExtension`: `o.tOpts.Extensions.In = append(o.tOpts.Extensions.In, extension)`. -/
def WithInExtension (extension : Ext) : Option σ ε Ext Data Sub :=
  fun o => { o with tOpts.Extensions.In := o.tOpts.Extensions.In ++ [extension] }

/-- `WithTransport`: `o.transport = t`. -/
def WithTransport (t : Transport σ ε Ext Data Sub) : Option σ ε Ext Data Sub :=
  fun o => { o with transport := t }

/-- The loop `for _, opt := range opts { opt(&c.opts) }` of `NewClient`. -/
def applyOpts (o : options σ ε Ext Data Sub) :
    List (Option σ ε Ext Data Sub) → options σ ε Ext Data Sub
  | [] => o
  | opt :: rest => applyOpts (opt o) rest

/-- `NewClient`: start from `defaultOpts`, apply the options in order, then
`Init`, `Handshake`, `Connect` on `c.opts.transport`, returning at the first
error. -/
def NewClient (websocket : Transport σ ε Ext Data Sub) (url : String)
    (opts : List (Option σ ε Ext Data Sub)) (w : World σ Ext Data) :
    (Ptr (Client σ ε Ext Data Sub) × error ε) × World σ Ext Data :=
  let c : Client σ ε Ext Data Sub := { opts := applyOpts (defaultOpts websocket) opts }
  match c.opts.transport.callInit url c.opts.tOpts w with
  | (some err, _, w1) => ((none, some err), w1)
  | (none, tOpts1, w1) =>
    let c : Client σ ε Ext Data Sub := { c with opts.tOpts := tOpts1 }
    match c.opts.transport.callHandshake w1 with
    | (some err, w2) => ((none, some err), w2)
    | (none, w2) =>
      match c.opts.transport.callConnect w2 with
      | (some err, w3) => ((none, some err), w3)
      | (none, w3) => ((some c, none), w3)

/-- `(*Client).Subscribe`: `return c.opts.transport.Subscribe(subscription)`.
The second component is the receiver as it is after the call: the method assigns
no field, but `c.opts.tOpts` is the record whose address the transport was
given, so it holds what the transport left in it during the call. -/
def Client.Subscribe (c : Client σ ε Ext Data Sub) (subscription : String)
    (w : World σ Ext Data) :
    (Ptr Sub × error ε) × Client σ ε Ext Data Sub × World σ Ext Data :=
  let r := c.opts.transport.callSubscribe subscription w
  (r.1,
    { c with opts.tOpts := c.opts.transport.SubscribeOptions subscription c.opts.tOpts w.st },
    r.2)

/-- `(*Client).Publish`: `return c.opts.transport.Publish(subscription, data)`.
The second component is the receiver as the method's own assignments leave it
(it makes none). -/
def Client.Publish (c : Client σ ε Ext Data Sub) (subscription : String) (data : Data)
    (w : World σ Ext Data) :
    (String × error ε) × Client σ ε Ext Data Sub × World σ Ext Data :=
  let r := c.opts.transport.callPublish subscription data w
  (r.1, c, r.2)

/-- `(*Client).Disconnect`: `return c.opts.transport.Disconnect()`.
The second component is the receiver as the method's own assignments leave it
(it makes none). -/
def Client.Disconnect (c : Client σ ε Ext Data Sub) (w : World σ Ext Data) :
    error ε × Client σ ε Ext Data Sub × World σ Ext Data :=
  let r := c.opts.transport.callDisconnect w
  (r.1, c, r.2)

/-! ## Options built from the four constructors -/

/-- An option built by one of the four constructors of `client.go`; `build`
gives the `Option` itself. -/
inductive OptionDesc (σ ε Ext Data Sub : Type) where
  | WithInExtension (extension : Ext)
  | WithOutExtension (extension : Ext)
  | WithExtension (inExt : Ext) (outExt : Ext)
  | WithTransport (t : Transport σ ε Ext Data Sub)

/-- The `Option` value a description stands for. -/
def OptionDesc.build : OptionDesc σ ε Ext Data Sub → Option σ ε Ext Data Sub
  | .WithInExtension e => fayec.WithInExtension e
  | .WithOutExtension e => fayec.WithOutExtension e
  | .WithExtension i o => fayec.WithExtension i o
  | .WithTransport t => fayec.WithTransport t

/-- The incoming extensions an option contributes. -/
def OptionDesc.incoming : OptionDesc σ ε Ext Data Sub → List Ext
  | .WithInExtension e => [e]
  | .WithExtension i _ => [i]
  | _ => []

/-- The outgoing extensions an option contributes. -/
def OptionDesc.outgoing : OptionDesc σ ε Ext Data Sub → List Ext
  | .WithOutExtension e => [e]
  | .WithExtension _ o => [o]
  | _ => []

/-- The transport an option names, if it is a `WithTransport`. -/
def OptionDesc.transports : OptionDesc σ ε Ext Data Sub → List (Transport σ ε Ext Data Sub)
  | .WithTransport t => [t]
  | _ => []

/-- Extension options: every constructor but `WithTransport`. -/
def OptionDesc.isExtension : OptionDesc σ ε Ext Data Sub → Bool
  | .WithTransport _ => false
  | _ => true

/-- The calls `NewClient` (or a method) added to the log of `w`. -/
def callsSince (w w1 : World σ Ext Data) : List (Call Ext Data) :=
  w1.trace.drop w.trace.length

/-! ## A concrete transport for the examples -/

/-- A transport with scripted results: `Init`, `Handshake`, `Connect` return the
given errors, the other three methods return `opErr`; `Publish` answers with the
id `"abc"`, `Subscribe` with the channel as handle.  Its state counts the calls
it received. -/
def fakeTransport (initErr hsErr connErr opErr : error String) :
    Transport Nat String String String String :=
  { Init := fun _ o n => (initErr, o, n + 1)
    Handshake := fun n => (hsErr, n + 1)
    Connect := fun n => (connErr, n + 1)
    Disconnect := fun n => (opErr, n + 1)
    Subscribe := fun channel n => ((if opErr.isNone then some channel else none, opErr), n + 1)
    Publish := fun _ _ n => (("abc", opErr), n + 1) }

/-- A client over `fakeTransport` with every call succeeding. -/
def fakeClient : Client Nat String String String String :=
  { opts := defaultOpts (fakeTransport none none none none) }

/-- A client over `fakeTransport` whose `Subscribe`, `Publish` and `Disconnect`
fail with `"network down"`. -/
def downClient : Client Nat String String String String :=
  { opts := defaultOpts (fakeTransport none none none (some "network down")) }

/-- The empty world for the examples. -/
def world0 : World Nat String String := { trace := [], st := 0 }

/-- A transport that connects, whose `Subscribe`, `Publish` and `Disconnect`
fail with `"network down"`, and whose `Subscribe` appends the outgoing extension
`"late"` to the options through the pointer it was given at `Init`. -/
def lateTransport : Transport Nat String String String String :=
  { fakeTransport none none none (some "network down") with
    SubscribeOptions := fun _ o _ =>
      { o with Extensions.Out := o.Extensions.Out ++ ["late"] } }

/-- The client `NewClient` returns over `lateTransport` with no options. -/
def lateClient : Client Nat String String String String :=
  { opts := defaultOpts lateTransport }

/-! ## The publish path behind the transport

`Client.Publish` only forwards; the id it returns is allocated inside the
transport, whose code is outside `client.go`.  The declarations below model
that part from the specification.
-/

/-- Modelled from the spec: the session states of section 3 (`SessionState`),
kept by the transport implementation that is missing from the sources. -/
inductive SessionState where
  | Disconnected
  | Handshaking
  | Connected
  | Disconnecting
  | Failed
  deriving DecidableEq, Repr

/-- Modelled from the spec: the error kinds of section 7 that the missing
session code returns from a synchronous call. -/
inductive ErrorKind where
  | NotConnected
  | AlreadyDisconnected
  deriving DecidableEq, Repr

/-- Modelled from the spec: the state of the missing session code, as far as
publishing is concerned: the session state, the monotonic counter from which
message ids are taken ("uniqueness is the sender's responsibility (e.g.,
monotonic counter ...)"), and the ids of the `PendingPublish` entries. -/
structure Session where
  state : SessionState
  nextId : Nat
  pending : List String

/-- Modelled from the spec: the missing session before construction:
`Disconnected`, nothing pending. -/
def Session.initial : Session :=
  { state := .Disconnected, nextId := 0, pending := [] }

/-- Modelled from the spec: the missing `publish` of section 4.1: "builds a
Message with a freshly allocated id, ..., creates a PendingPublish, forwards to
Transport Adapter; returns the id immediately"; outside `Connected` it fails
with `NotConnected`.  The id is the decimal rendering of the counter. -/
def Session.publish (s : Session) : (String × error ErrorKind) × Session :=
  if s.state = SessionState.Connected then
    ((Nat.repr s.nextId, none),
      { s with nextId := s.nextId + 1, pending := Nat.repr s.nextId :: s.pending })
  else (("", some ErrorKind.NotConnected), s)

/-- Modelled from the spec: the missing `resolve` of section 4.4: a response
whose id matches a `PendingPublish` removes that entry; any other response
leaves the entries alone. -/
def Session.resolve (id : String) (s : Session) : Session :=
  { s with pending := s.pending.erase id }

/-- Modelled from the spec: the missing `disconnect` of section 4.1: all
`PendingPublish` entries are discarded and the session ends `Disconnected`; a
session that is not `Connected` answers `AlreadyDisconnected`. -/
def Session.disconnect (s : Session) : error ErrorKind × Session :=
  if s.state = SessionState.Connected then
    (none, { s with state := .Disconnected, pending := [] })
  else (some ErrorKind.AlreadyDisconnected, s)

/-- Modelled from the spec: the missing transport implementation, as the
`Transport` record over `Session`: `Init` enters `Handshaking`, `Handshake`
and `Connect` succeed and end in `Connected`, `Publish` and `Disconnect` are
`Session.publish` and `Session.disconnect`, `Subscribe` needs `Connected`. -/
def specTransport (Ext Data : Type) : Transport Session ErrorKind Ext Data String :=
  { Init := fun _ o s => (none, o, { s with state := .Handshaking })
    Handshake := fun s => (none, s)
    Connect := fun s => (none, { s with state := .Connected })
    Disconnect := fun s => s.disconnect
    Subscribe := fun channel s =>
      if s.state = SessionState.Connected then ((some channel, none), s)
      else ((none, some ErrorKind.NotConnected), s)
    Publish := fun _ _ s => s.publish }

/-- The client `NewClient` builds over `specTransport` with no options. -/
def specClient (Ext Data : Type) : Client Session ErrorKind Ext Data String :=
  { opts := defaultOpts (specTransport Ext Data) }

/-- What can happen to a connected client: the caller publishes, a publish
response with some id arrives from the server, or the caller disconnects. -/
inductive Event (Data : Type) where
  | publish (channel : String) (data : Data)
  | response (id : String)
  | disconnect

/-- One event on `specClient`: `Client.Publish`, the arrival of a response
(`Session.resolve` on the transport state), or `Client.Disconnect`. -/
def stepEvent (w : World Session Ext Data) : Event Data → World Session Ext Data
  | .publish channel data => ((specClient Ext Data).Publish channel data w).2.2
  | .response id => { w with st := w.st.resolve id }
  | .disconnect => ((specClient Ext Data).Disconnect w).2.2

/-- The world after `NewClient` on `specTransport` followed by the events. -/
def runEvents (Ext : Type) (url : String) (events : List (Event Data)) :
    World Session Ext Data :=
  events.foldl stepEvent
    (NewClient (specTransport Ext Data) url [] { trace := [], st := Session.initial }).2

/-- Decimal value of a list of digit characters (the inverse of `Nat.toDigits 10`). -/
def decimalValue (cs : List Char) : Nat :=
  cs.foldl (fun acc c => acc * 10 + (c.toNat - 48)) 0

/-- The invariant of the modelled session: every pending id is the rendering of
a counter value already used, no id is pending twice, and outside `Connected`
nothing is pending. -/
def Session.WellFormed (s : Session) : Prop :=
  (∀ id ∈ s.pending, ∃ k, k < s.nextId ∧ id = Nat.repr k) ∧
  s.pending.Nodup ∧
  (s.state ≠ SessionState.Connected → s.pending = [])

/-! ## Lemmas on the option loop and on `NewClient` -/

theorem applyOpts_append (o : options σ ε Ext Data Sub) (xs ys : List (Option σ ε Ext Data Sub)) :
    applyOpts o (xs ++ ys) = applyOpts (applyOpts o xs) ys := by
  induction xs generalizing o with
  | nil => rfl
  | cons x xs ih => exact ih (x o)

theorem applyOpts_build_In (o : options σ ε Ext Data Sub)
    (descs : List (OptionDesc σ ε Ext Data Sub)) :
    (applyOpts o (descs.map OptionDesc.build)).tOpts.Extensions.In
      = o.tOpts.Extensions.In ++ (descs.map OptionDesc.incoming).flatten := by
  induction descs generalizing o with
  | nil => simp [applyOpts]
  | cons d ds ih =>
    cases d <;>
      simp [applyOpts, ih, OptionDesc.build, OptionDesc.incoming, WithInExtension,
        WithOutExtension, WithExtension, WithTransport]

theorem applyOpts_build_Out (o : options σ ε Ext Data Sub)
    (descs : List (OptionDesc σ ε Ext Data Sub)) :
    (applyOpts o (descs.map OptionDesc.build)).tOpts.Extensions.Out
      = o.tOpts.Extensions.Out ++ (descs.map OptionDesc.outgoing).flatten := by
  induction descs generalizing o with
  | nil => simp [applyOpts]
  | cons d ds ih =>
    cases d <;>
      simp [applyOpts, ih, OptionDesc.build, OptionDesc.outgoing, WithInExtension,
        WithOutExtension, WithExtension, WithTransport]

theorem applyOpts_build_transport (o : options σ ε Ext Data Sub)
    (descs : List (OptionDesc σ ε Ext Data Sub)) :
    (applyOpts o (descs.map OptionDesc.build)).transport
      = ((descs.map OptionDesc.transports).flatten.getLast?).getD o.transport := by
  induction descs using List.reverseRecOn with
  | nil => simp [applyOpts]
  | append_singleton ds d ih =>
    rw [List.map_append, applyOpts_append]
    cases d <;>
      simp [applyOpts, ih, OptionDesc.build, OptionDesc.transports, WithInExtension,
        WithOutExtension, WithExtension, WithTransport]

/-- When `Init` fails, `NewClient` returns that error after the single call. -/
theorem NewClient_of_init_error (websocket : Transport σ ε Ext Data Sub) (url : String)
    (opts : List (Option σ ε Ext Data Sub)) (w : World σ Ext Data) (e : ε)
    (h : ((applyOpts (defaultOpts websocket) opts).transport.Init url
      (applyOpts (defaultOpts websocket) opts).tOpts w.st).1 = some e) :
    (NewClient websocket url opts w).1 = (none, some e) ∧
    (NewClient websocket url opts w).2.trace
      = w.trace ++ [Call.Init url (applyOpts (defaultOpts websocket) opts).tOpts] := by
  simp [NewClient, Transport.callInit, h]

/-- When `Init` succeeds and `Handshake` fails, `NewClient` returns the
handshake error after the two calls. -/
theorem NewClient_of_handshake_error (websocket : Transport σ ε Ext Data Sub) (url : String)
    (opts : List (Option σ ε Ext Data Sub)) (w : World σ Ext Data) (e : ε)
    (hInit : ((applyOpts (defaultOpts websocket) opts).transport.Init url
      (applyOpts (defaultOpts websocket) opts).tOpts w.st).1 = none)
    (hHs : ((applyOpts (defaultOpts websocket) opts).transport.Handshake
      ((applyOpts (defaultOpts websocket) opts).transport.Init url
        (applyOpts (defaultOpts websocket) opts).tOpts w.st).2.2).1 = some e) :
    (NewClient websocket url opts w).1 = (none, some e) ∧
    (NewClient websocket url opts w).2.trace
      = w.trace ++ [Call.Init url (applyOpts (defaultOpts websocket) opts).tOpts,
          Call.Handshake] := by
  simp [NewClient, Transport.callInit, Transport.callHandshake, hInit, hHs]

/-- When `Init` and `Handshake` succeed and `Connect` fails, `NewClient` returns
the connect error after the three calls. -/
theorem NewClient_of_connect_error (websocket : Transport σ ε Ext Data Sub) (url : String)
    (opts : List (Option σ ε Ext Data Sub)) (w : World σ Ext Data) (e : ε)
    (hInit : ((applyOpts (defaultOpts websocket) opts).transport.Init url
      (applyOpts (defaultOpts websocket) opts).tOpts w.st).1 = none)
    (hHs : ((applyOpts (defaultOpts websocket) opts).transport.Handshake
      ((applyOpts (defaultOpts websocket) opts).transport.Init url
        (applyOpts (defaultOpts websocket) opts).tOpts w.st).2.2).1 = none)
    (hConn : ((applyOpts (defaultOpts websocket) opts).transport.Connect
      ((applyOpts (defaultOpts websocket) opts).transport.Handshake
        ((applyOpts (defaultOpts websocket) opts).transport.Init url
          (applyOpts (defaultOpts websocket) opts).tOpts w.st).2.2).2).1 = some e) :
    (NewClient websocket url opts w).1 = (none, some e) ∧
    (NewClient websocket url opts w).2.trace
      = w.trace ++ [Call.Init url (applyOpts (defaultOpts websocket) opts).tOpts,
          Call.Handshake, Call.Connect] := by
  simp [NewClient, Transport.callInit, Transport.callHandshake, Transport.callConnect,
    hInit, hHs, hConn]

/-- When the three steps succeed, `NewClient` returns the client (its transport
the selected one, its options as `Init` left them) after the three calls. -/
theorem NewClient_of_success (websocket : Transport σ ε Ext Data Sub) (url : String)
    (opts : List (Option σ ε Ext Data Sub)) (w : World σ Ext Data)
    (hInit : ((applyOpts (defaultOpts websocket) opts).transport.Init url
      (applyOpts (defaultOpts websocket) opts).tOpts w.st).1 = none)
    (hHs : ((applyOpts (defaultOpts websocket) opts).transport.Handshake
      ((applyOpts (defaultOpts websocket) opts).transport.Init url
        (applyOpts (defaultOpts websocket) opts).tOpts w.st).2.2).1 = none)
    (hConn : ((applyOpts (defaultOpts websocket) opts).transport.Connect
      ((applyOpts (defaultOpts websocket) opts).transport.Handshake
        ((applyOpts (defaultOpts websocket) opts).transport.Init url
          (applyOpts (defaultOpts websocket) opts).tOpts w.st).2.2).2).1 = none) :
    (NewClient websocket url opts w).1
      = (some { opts :=
            { transport := (applyOpts (defaultOpts websocket) opts).transport
              tOpts := ((applyOpts (defaultOpts websocket) opts).transport.Init url
                (applyOpts (defaultOpts websocket) opts).tOpts w.st).2.1 } }, none) ∧
    (NewClient websocket url opts w).2.trace
      = w.trace ++ [Call.Init url (applyOpts (defaultOpts websocket) opts).tOpts,
          Call.Handshake, Call.Connect] := by
  simp [NewClient, Transport.callInit, Transport.callHandshake, Transport.callConnect,
    hInit, hHs, hConn]

theorem callsSince_append (w : World σ Ext Data) (calls : List (Call Ext Data)) (s : σ) :
    callsSince w { trace := w.trace ++ calls, st := s } = calls := by
  simp [callsSince]

/-- Whatever the transport answers, the first call `NewClient` makes is `Init`
with the url and the accumulated transport options. -/
theorem NewClient_first_call (websocket : Transport σ ε Ext Data Sub) (url : String)
    (opts : List (Option σ ε Ext Data Sub)) (w : World σ Ext Data) :
    ∃ rest, callsSince w (NewClient websocket url opts w).2
      = Call.Init url (applyOpts (defaultOpts websocket) opts).tOpts :: rest := by
  unfold callsSince
  rcases hi : ((applyOpts (defaultOpts websocket) opts).transport.Init url
      (applyOpts (defaultOpts websocket) opts).tOpts w.st).1 with _ | e
  · rcases hh : ((applyOpts (defaultOpts websocket) opts).transport.Handshake
        ((applyOpts (defaultOpts websocket) opts).transport.Init url
          (applyOpts (defaultOpts websocket) opts).tOpts w.st).2.2).1 with _ | e
    · rcases hc : ((applyOpts (defaultOpts websocket) opts).transport.Connect
          ((applyOpts (defaultOpts websocket) opts).transport.Handshake
            ((applyOpts (defaultOpts websocket) opts).transport.Init url
              (applyOpts (defaultOpts websocket) opts).tOpts w.st).2.2).2).1 with _ | e
      · rw [(NewClient_of_success websocket url opts w hi hh hc).2]
        exact ⟨[Call.Handshake, Call.Connect], by simp⟩
      · rw [(NewClient_of_connect_error websocket url opts w e hi hh hc).2]
        exact ⟨[Call.Handshake, Call.Connect], by simp⟩
    · rw [(NewClient_of_handshake_error websocket url opts w e hi hh).2]
      exact ⟨[Call.Handshake], by simp⟩
  · rw [(NewClient_of_init_error websocket url opts w e hi).2]
    exact ⟨[], by simp⟩

/-- An extension option commutes with `WithTransport`. -/
theorem build_extension_comm (t : Transport σ ε Ext Data Sub)
    (d : OptionDesc σ ε Ext Data Sub) (hd : d.isExtension = true)
    (o : options σ ε Ext Data Sub) :
    d.build (WithTransport t o) = WithTransport t (d.build o) := by
  cases d <;> first | rfl | simp [OptionDesc.isExtension] at hd

theorem applyOpts_extensions_comm (t : Transport σ ε Ext Data Sub)
    (mid : List (OptionDesc σ ε Ext Data Sub)) (hmid : ∀ d ∈ mid, d.isExtension = true)
    (o : options σ ε Ext Data Sub) :
    applyOpts (WithTransport t o) (mid.map OptionDesc.build)
      = WithTransport t (applyOpts o (mid.map OptionDesc.build)) := by
  induction mid generalizing o with
  | nil => rfl
  | cons d ds ih =>
    simp only [List.map_cons, applyOpts]
    rw [build_extension_comm t d (hmid d (List.mem_cons_self _ _))]
    exact ih (fun x hx => hmid x (List.mem_cons_of_mem _ hx)) _

/-! ## Properties of the options, of `NewClient` and of the client methods -/

/-- C8: on every options value, `WithExtension(i, o2)` gives the same options as
`WithInExtension(i)` followed by `WithOutExtension(o2)` and as the two in the
opposite order: `i` is appended at the end of `In`, `o2` at the end of `Out`,
each list growing by exactly one element. -/
theorem C8_WithExtension_is_both_appends (o : options σ ε Ext Data Sub) (i o2 : Ext) :
    WithExtension i o2 o = WithOutExtension o2 (WithInExtension i o) ∧
    WithExtension i o2 o = WithInExtension i (WithOutExtension o2 o) ∧
    (WithExtension i o2 o).tOpts.Extensions.In = o.tOpts.Extensions.In ++ [i] ∧
    (WithExtension i o2 o).tOpts.Extensions.Out = o.tOpts.Extensions.Out ++ [o2] ∧
    (WithExtension i o2 o).tOpts.Extensions.In.length = o.tOpts.Extensions.In.length + 1 ∧
    (WithExtension i o2 o).tOpts.Extensions.Out.length
      = o.tOpts.Extensions.Out.length + 1 := by
  refine ⟨rfl, rfl, rfl, rfl, ?_, ?_⟩ <;> simp [WithExtension]

/-- C2: for every list of options built from the four constructors, applied in
order to the default options, `Out` is the list of outgoing extensions in option
order and `In` the list of incoming extensions in option order; the list
`[WithOutExtension(A), WithOutExtension(B)]` gives `Out = [A, B]`; and the first
transport call of `NewClient` is `Init` with exactly these lists. -/
theorem C2_extension_lists_follow_option_order (websocket : Transport σ ε Ext Data Sub)
    (url : String) (descs : List (OptionDesc σ ε Ext Data Sub)) (w : World σ Ext Data)
    (A B : Ext) :
    (applyOpts (defaultOpts websocket) (descs.map OptionDesc.build)).tOpts.Extensions.Out
      = (descs.map OptionDesc.outgoing).flatten ∧
    (applyOpts (defaultOpts websocket) (descs.map OptionDesc.build)).tOpts.Extensions.In
      = (descs.map OptionDesc.incoming).flatten ∧
    (applyOpts (defaultOpts websocket)
        [WithOutExtension A, WithOutExtension B]).tOpts.Extensions.Out = [A, B] ∧
    ∃ rest, callsSince w (NewClient websocket url (descs.map OptionDesc.build) w).2
      = Call.Init url
          { Extensions :=
              { In := (descs.map OptionDesc.incoming).flatten
                Out := (descs.map OptionDesc.outgoing).flatten } } :: rest := by
  have hOut := applyOpts_build_Out (defaultOpts websocket) descs
  have hIn := applyOpts_build_In (defaultOpts websocket) descs
  simp only [defaultOpts, List.nil_append] at hOut hIn
  refine ⟨hOut, hIn, rfl, ?_⟩
  obtain ⟨rest, h⟩ := NewClient_first_call websocket url (descs.map OptionDesc.build) w
  refine ⟨rest, ?_⟩
  rw [h]
  congr 1
  congr 1
  show (applyOpts (defaultOpts websocket) (descs.map OptionDesc.build)).tOpts = _
  rcases hx : (applyOpts (defaultOpts websocket) (descs.map OptionDesc.build)).tOpts
    with ⟨⟨i, o⟩⟩
  simp only [defaultOpts] at hx
  rw [hx] at hOut hIn
  simp only at hOut hIn
  rw [hOut, hIn]

/-- C10: each option changes only its own part of the options.
`WithTransport(t)` sets the transport to `t` and leaves the transport options
(so `In` and `Out`) unchanged; `WithInExtension` leaves `Out` and the transport
unchanged; `WithOutExtension` leaves `In` and the transport unchanged.  Hence
for any option list the transport in the resulting options, and of the client
`NewClient` returns, is that of the last `WithTransport` (the default when there
is none), and moving a `WithTransport` across a run `mid` of extension options
does not change the resulting options. -/
theorem C10_options_frame (o : options σ ε Ext Data Sub) (t : Transport σ ε Ext Data Sub)
    (e : Ext) (websocket : Transport σ ε Ext Data Sub) (url : String)
    (w : World σ Ext Data) (descs pre mid post : List (OptionDesc σ ε Ext Data Sub))
    (hmid : ∀ d ∈ mid, d.isExtension = true) :
    ((WithTransport t o).transport = t ∧ (WithTransport t o).tOpts = o.tOpts) ∧
    ((WithInExtension e o).tOpts.Extensions.Out = o.tOpts.Extensions.Out ∧
      (WithInExtension e o).transport = o.transport) ∧
    ((WithOutExtension e o).tOpts.Extensions.In = o.tOpts.Extensions.In ∧
      (WithOutExtension e o).transport = o.transport) ∧
    (applyOpts (defaultOpts websocket) (descs.map OptionDesc.build)).transport
      = ((descs.map OptionDesc.transports).flatten.getLast?).getD websocket ∧
    (∀ c, (NewClient websocket url (descs.map OptionDesc.build) w).1.1 = some c →
      c.opts.transport
        = ((descs.map OptionDesc.transports).flatten.getLast?).getD websocket) ∧
    applyOpts o ((pre ++ [OptionDesc.WithTransport t] ++ mid ++ post).map OptionDesc.build)
      = applyOpts o
          ((pre ++ mid ++ [OptionDesc.WithTransport t] ++ post).map OptionDesc.build) := by
  have hlast : (applyOpts (defaultOpts websocket) (descs.map OptionDesc.build)).transport
      = ((descs.map OptionDesc.transports).flatten.getLast?).getD websocket :=
    applyOpts_build_transport (defaultOpts websocket) descs
  refine ⟨⟨rfl, rfl⟩, ⟨rfl, rfl⟩, ⟨rfl, rfl⟩, hlast, ?_, ?_⟩
  · intro c hc
    rw [← hlast]
    simp only [NewClient, Transport.callInit, Transport.callHandshake,
      Transport.callConnect] at hc
    split at hc
    · simp at hc
    · split at hc
      · simp at hc
      · split at hc
        · simp at hc
        · simp only [Option.some.injEq] at hc
          rw [← hc]
  · simp only [List.map_append, applyOpts_append, List.map_cons, List.map_nil, applyOpts,
      OptionDesc.build]
    rw [applyOpts_extensions_comm t mid hmid]

/-- C10 at a concrete input: a `WithTransport` moved across two extension
options. -/
theorem C10_options_frame_witness :
    (∀ d ∈ ([OptionDesc.WithInExtension "in1", OptionDesc.WithExtension "in2" "out2"] :
          List (OptionDesc Nat String String String String)),
        d.isExtension = true) ∧
    applyOpts (defaultOpts (fakeTransport none none none none))
        (([OptionDesc.WithOutExtension "out0"]
            ++ [OptionDesc.WithTransport (fakeTransport none (some "boom") none none)]
            ++ [OptionDesc.WithInExtension "in1", OptionDesc.WithExtension "in2" "out2"]
            ++ [OptionDesc.WithOutExtension "out3"]).map OptionDesc.build)
      = applyOpts (defaultOpts (fakeTransport none none none none))
        (([OptionDesc.WithOutExtension "out0"]
            ++ [OptionDesc.WithInExtension "in1", OptionDesc.WithExtension "in2" "out2"]
            ++ [OptionDesc.WithTransport (fakeTransport none (some "boom") none none)]
            ++ [OptionDesc.WithOutExtension "out3"]).map OptionDesc.build) :=
  have h : ∀ d ∈ ([OptionDesc.WithInExtension "in1", OptionDesc.WithExtension "in2" "out2"] :
          List (OptionDesc Nat String String String String)),
        d.isExtension = true := by
    intro d hd
    simp only [List.mem_cons, List.mem_singleton, List.not_mem_nil, or_false] at hd
    rcases hd with rfl | rfl <;> rfl
  ⟨h, (C10_options_frame (defaultOpts (fakeTransport none none none none))
      (fakeTransport none (some "boom") none none) "e" (fakeTransport none none none none)
      "ws://host" world0 [] [OptionDesc.WithOutExtension "out0"]
      [OptionDesc.WithInExtension "in1", OptionDesc.WithExtension "in2" "out2"]
      [OptionDesc.WithOutExtension "out3"] h).2.2.2.2.2⟩

/-- C1: for every url, option list and world, when the selected transport's
`Init` succeeds and its `Handshake` returns the error `e`, `NewClient` returns
`(nil, e)`, and the calls it made are `Init` and `Handshake` only: `Connect` is
not called. -/
theorem C1_handshake_error_returned_no_connect (websocket : Transport σ ε Ext Data Sub)
    (url : String) (opts : List (Option σ ε Ext Data Sub)) (w : World σ Ext Data)
    (tOpts1 : Options Ext) (s1 s2 : σ) (e : ε)
    (hInit : (applyOpts (defaultOpts websocket) opts).transport.Init url
      (applyOpts (defaultOpts websocket) opts).tOpts w.st = (none, tOpts1, s1))
    (hHs : (applyOpts (defaultOpts websocket) opts).transport.Handshake s1 = (some e, s2)) :
    (NewClient websocket url opts w).1 = (none, some e) ∧
    callsSince w (NewClient websocket url opts w).2
      = [Call.Init url (applyOpts (defaultOpts websocket) opts).tOpts, Call.Handshake] ∧
    Call.Connect ∉ callsSince w (NewClient websocket url opts w).2 ∧
    (NewClient websocket url opts w).2.st = s2 := by
  have h : NewClient websocket url opts w
      = ((none, some e),
          { trace := w.trace ++
              [Call.Init url (applyOpts (defaultOpts websocket) opts).tOpts, Call.Handshake]
            st := s2 }) := by
    simp [NewClient, Transport.callInit, Transport.callHandshake, hInit, hHs]
  rw [h]
  simp [callsSince_append]

/-- C1 at a concrete input: a transport whose handshake fails with `"boom"`. -/
theorem C1_handshake_error_returned_no_connect_witness :
    (NewClient (fakeTransport none (some "boom") none none) "ws://host"
        [WithOutExtension "ext"] world0).1 = (none, some "boom") ∧
    callsSince world0 (NewClient (fakeTransport none (some "boom") none none) "ws://host"
        [WithOutExtension "ext"] world0).2
      = [Call.Init "ws://host" { Extensions := { In := [], Out := ["ext"] } },
          Call.Handshake] ∧
    Call.Connect ∉ callsSince world0
      (NewClient (fakeTransport none (some "boom") none none) "ws://host"
        [WithOutExtension "ext"] world0).2 ∧
    (NewClient (fakeTransport none (some "boom") none none) "ws://host"
        [WithOutExtension "ext"] world0).2.st = 2 :=
  C1_handshake_error_returned_no_connect (fakeTransport none (some "boom") none none)
    "ws://host" [WithOutExtension "ext"] world0
    { Extensions := { In := [], Out := ["ext"] } } 1 2 "boom" rfl rfl

/-- C9: name the results of the three steps on the selected transport `Init`
(on the url and the accumulated options), `Handshake`, `Connect`, each run on
the state the previous one left.  `NewClient` returns a non-nil client with a
nil error exactly when all three errors are nil, and then the calls are `Init`,
`Handshake`, `Connect`, once each, in that order; otherwise it returns a nil
client with the error of the first failing step, and the calls stop at that
step. -/
theorem C9_NewClient_outcomes (websocket : Transport σ ε Ext Data Sub)
    (url : String) (opts : List (Option σ ε Ext Data Sub)) (w : World σ Ext Data)
    (ei eh ec : error ε) (tOpts1 : Options Ext) (s1 s2 s3 : σ)
    (hInit : (applyOpts (defaultOpts websocket) opts).transport.Init url
      (applyOpts (defaultOpts websocket) opts).tOpts w.st = (ei, tOpts1, s1))
    (hHs : (applyOpts (defaultOpts websocket) opts).transport.Handshake s1 = (eh, s2))
    (hConn : (applyOpts (defaultOpts websocket) opts).transport.Connect s2 = (ec, s3)) :
    (((NewClient websocket url opts w).1.1 ≠ none ∧ (NewClient websocket url opts w).1.2 = none)
      ↔ (ei = none ∧ eh = none ∧ ec = none)) ∧
    (ei = none → eh = none → ec = none →
      NewClient websocket url opts w
        = ((some { opts := { transport := (applyOpts (defaultOpts websocket) opts).transport
                             tOpts := tOpts1 } }, none),
            { trace := w.trace ++
                [Call.Init url (applyOpts (defaultOpts websocket) opts).tOpts,
                  Call.Handshake, Call.Connect]
              st := s3 })) ∧
    (∀ e, ei = some e →
      NewClient websocket url opts w
        = ((none, some e),
            { trace := w.trace ++
                [Call.Init url (applyOpts (defaultOpts websocket) opts).tOpts]
              st := s1 })) ∧
    (∀ e, ei = none → eh = some e →
      NewClient websocket url opts w
        = ((none, some e),
            { trace := w.trace ++
                [Call.Init url (applyOpts (defaultOpts websocket) opts).tOpts,
                  Call.Handshake]
              st := s2 })) ∧
    (∀ e, ei = none → eh = none → ec = some e →
      NewClient websocket url opts w
        = ((none, some e),
            { trace := w.trace ++
                [Call.Init url (applyOpts (defaultOpts websocket) opts).tOpts,
                  Call.Handshake, Call.Connect]
              st := s3 })) := by
  rcases ei with _ | a <;> rcases eh with _ | b <;> rcases ec with _ | c <;>
    simp [NewClient, Transport.callInit, Transport.callHandshake, Transport.callConnect,
      hInit, hHs, hConn]

/-- C9 at concrete inputs: a transport whose three steps succeed, and one whose
`Connect` fails with `"refused"`. -/
theorem C9_NewClient_outcomes_witness :
    NewClient (fakeTransport none none none none) "ws://host" [] world0
      = ((some fakeClient, none),
          { trace := [Call.Init "ws://host" { Extensions := { In := [], Out := [] } },
                      Call.Handshake, Call.Connect]
            st := 3 }) ∧
    NewClient (fakeTransport none none (some "refused") none) "ws://host" [] world0
      = ((none, some "refused"),
          { trace := [Call.Init "ws://host" { Extensions := { In := [], Out := [] } },
                      Call.Handshake, Call.Connect]
            st := 3 }) :=
  ⟨(C9_NewClient_outcomes (fakeTransport none none none none) "ws://host" [] world0
      none none none { Extensions := { In := [], Out := [] } } 1 2 3 rfl rfl rfl).2.1
      rfl rfl rfl,
   (C9_NewClient_outcomes (fakeTransport none none (some "refused") none) "ws://host" []
      world0 none none (some "refused") { Extensions := { In := [], Out := [] } } 1 2 3
      rfl rfl rfl).2.2.2.2 "refused" rfl rfl rfl⟩

/-- C3, as stated, fails: on a client whose transport accepts every call,
`Disconnect()` succeeds, and a later `Subscribe` and a later `Publish` both
return a nil error and are both forwarded to the transport. -/
theorem C3_counterexample :
    (fakeClient.Disconnect world0).1 = none ∧
    (fakeClient.Subscribe "/foo" (fakeClient.Disconnect world0).2.2).1
      = (some "/foo", none) ∧
    callsSince (fakeClient.Disconnect world0).2.2
        (fakeClient.Subscribe "/foo" (fakeClient.Disconnect world0).2.2).2.2
      = [Call.Subscribe "/foo"] ∧
    (fakeClient.Publish "/foo" "x" (fakeClient.Disconnect world0).2.2).1 = ("abc", none) ∧
    callsSince (fakeClient.Disconnect world0).2.2
        (fakeClient.Publish "/foo" "x" (fakeClient.Disconnect world0).2.2).2.2
      = [Call.Publish "/foo" "x"] := by
  decide

/-- C3, amended: after `Disconnect()` a later `Subscribe` or `Publish` is still
forwarded to the transport, as exactly one call with the same arguments, run on
the state `Disconnect` left, and the client returns exactly what the transport
returns (so it fails only with the transport's own error). -/
theorem C3_after_disconnect_calls_are_forwarded (c : Client σ ε Ext Data Sub)
    (channel : String) (data : Data) (w : World σ Ext Data) :
    (c.Subscribe channel (c.Disconnect w).2.2).1
      = (c.opts.transport.Subscribe channel (c.opts.transport.Disconnect w.st).2).1 ∧
    callsSince (c.Disconnect w).2.2 (c.Subscribe channel (c.Disconnect w).2.2).2.2
      = [Call.Subscribe channel] ∧
    (c.Publish channel data (c.Disconnect w).2.2).1
      = (c.opts.transport.Publish channel data (c.opts.transport.Disconnect w.st).2).1 ∧
    callsSince (c.Disconnect w).2.2 (c.Publish channel data (c.Disconnect w).2.2).2.2
      = [Call.Publish channel data] ∧
    (c.Disconnect w).2.2.trace = w.trace ++ [Call.Disconnect] := by
  simp [Client.Subscribe, Client.Publish, Client.Disconnect, Transport.callSubscribe,
    Transport.callPublish, Transport.callDisconnect, callsSince]

/-- C4, as stated, fails: `Subscribe` with the empty channel name, and with a
name that does not start with `/`, returns a nil error and is forwarded to the
transport. -/
theorem C4_counterexample :
    (fakeClient.Subscribe "" world0).1 = (some "", none) ∧
    callsSince world0 (fakeClient.Subscribe "" world0).2.2 = [Call.Subscribe ""] ∧
    (fakeClient.Subscribe "foo" world0).1 = (some "foo", none) ∧
    callsSince world0 (fakeClient.Subscribe "foo" world0).2.2 = [Call.Subscribe "foo"] := by
  decide

/-- C4, amended: for every channel name, the empty one and those not starting
with `/` included, `Subscribe` forwards the name unchanged to the transport in
exactly one call and returns the transport's result; it returns an error exactly
when the transport's `Subscribe` does. -/
theorem C4_subscribe_forwards_any_channel (c : Client σ ε Ext Data Sub)
    (channel : String) (w : World σ Ext Data) :
    (c.Subscribe channel w).1 = (c.opts.transport.Subscribe channel w.st).1 ∧
    callsSince w (c.Subscribe channel w).2.2 = [Call.Subscribe channel] ∧
    (c.Subscribe channel w).2.2.st = (c.opts.transport.Subscribe channel w.st).2 ∧
    ((c.Subscribe channel w).1.2 = none
      ↔ (c.opts.transport.Subscribe channel w.st).1.2 = none) := by
  simp [Client.Subscribe, Transport.callSubscribe, callsSince]

/-- C5: for every channel and data, `Publish` makes exactly one transport call,
`Publish` with that channel and data, and returns exactly the id (and error) the
transport returned, which depends on nothing but that call; the client is left
unchanged.  With a transport answering `"abc"`, a publish to `/foo` returns
`"abc"`. -/
theorem C5_publish_forwards_and_returns_id (c : Client σ ε Ext Data Sub)
    (channel : String) (data : Data) (w : World σ Ext Data) :
    (c.Publish channel data w).1 = (c.opts.transport.Publish channel data w.st).1 ∧
    callsSince w (c.Publish channel data w).2.2 = [Call.Publish channel data] ∧
    (c.Publish channel data w).2.2.st = (c.opts.transport.Publish channel data w.st).2 ∧
    (c.Publish channel data w).2.1 = c ∧
    (fakeClient.Publish "/foo" "n:1" world0).1 = ("abc", none) ∧
    callsSince world0 (fakeClient.Publish "/foo" "n:1" world0).2.2
      = [Call.Publish "/foo" "n:1"] := by
  refine ⟨?_, ?_, ?_, ?_, by decide, by decide⟩ <;>
    simp [Client.Publish, Transport.callPublish, callsSince]

/-- C6, as stated, fails in its last part: on the client `NewClient` returns
over a transport that kept the options pointer, a `Subscribe` whose transport
call fails with `"network down"` returns that error and leaves the client's
outgoing extensions changed from `[]` to `["late"]`. -/
theorem C6_counterexample :
    (NewClient lateTransport "ws://host" [] world0).1 = (some lateClient, none) ∧
    (lateClient.opts.transport.Subscribe "/foo"
        (NewClient lateTransport "ws://host" [] world0).2.st).1.2 = some "network down" ∧
    (lateClient.Subscribe "/foo"
        (NewClient lateTransport "ws://host" [] world0).2).1.2 = some "network down" ∧
    lateClient.opts.tOpts.Extensions.Out = [] ∧
    (lateClient.Subscribe "/foo"
        (NewClient lateTransport "ws://host" [] world0).2).2.1.opts.tOpts.Extensions.Out
      = ["late"] ∧
    (lateClient.Subscribe "/foo"
        (NewClient lateTransport "ws://host" [] world0).2).2.1.opts.tOpts
      ≠ lateClient.opts.tOpts :=
  ⟨rfl, by decide, by decide, by decide, by decide, by decide⟩

/-- C6, amended: whenever the transport call behind `Subscribe`, `Publish` or
`Disconnect` returns an error `e`, the client method returns exactly `e`; in
that case `Subscribe` itself assigns no client field: the client's transport is
unchanged, its transport options hold exactly what the transport left in them
through the pointer it was given at `Init`, and when the transport left them as
they were the client is unchanged. -/
theorem C6_transport_errors_returned_options_as_left (c : Client σ ε Ext Data Sub)
    (channel : String) (data : Data) (w : World σ Ext Data) (e : ε) :
    ((c.opts.transport.Subscribe channel w.st).1.2 = some e →
      (c.Subscribe channel w).1.2 = some e ∧
      (c.Subscribe channel w).2.1.opts.transport = c.opts.transport ∧
      (c.Subscribe channel w).2.1.opts.tOpts
        = c.opts.transport.SubscribeOptions channel c.opts.tOpts w.st ∧
      (c.opts.transport.SubscribeOptions channel c.opts.tOpts w.st = c.opts.tOpts →
        (c.Subscribe channel w).2.1 = c)) ∧
    ((c.opts.transport.Publish channel data w.st).1.2 = some e →
      (c.Publish channel data w).1.2 = some e) ∧
    ((c.opts.transport.Disconnect w.st).1 = some e → (c.Disconnect w).1 = some e) := by
  refine ⟨fun h => ⟨?_, rfl, rfl, fun hkeep => ?_⟩, fun h => ?_, fun h => ?_⟩
  · simpa [Client.Subscribe, Transport.callSubscribe] using h
  · simp only [Client.Subscribe, hkeep]
  · simpa [Client.Publish, Transport.callPublish] using h
  · simpa [Client.Disconnect, Transport.callDisconnect] using h

/-- C6 at a concrete input: a transport whose three calls fail with
`"network down"` and which does not write through the options pointer. -/
theorem C6_transport_errors_returned_options_as_left_witness :
    ((downClient.Subscribe "/foo" world0).1.2 = some "network down" ∧
      (downClient.Subscribe "/foo" world0).2.1 = downClient) ∧
    (downClient.Publish "/foo" "x" world0).1.2 = some "network down" ∧
    (downClient.Disconnect world0).1 = some "network down" :=
  ⟨⟨((C6_transport_errors_returned_options_as_left downClient "/foo" "x" world0
        "network down").1 rfl).1,
    ((C6_transport_errors_returned_options_as_left downClient "/foo" "x" world0
        "network down").1 rfl).2.2.2 rfl⟩,
   (C6_transport_errors_returned_options_as_left downClient "/foo" "x" world0
      "network down").2.1 rfl,
   (C6_transport_errors_returned_options_as_left downClient "/foo" "x" world0
      "network down").2.2 rfl⟩

/-! ### Ids of pending publishes -/

theorem digitChar_value (d : Nat) (h : d < 10) : (Nat.digitChar d).toNat - 48 = d := by
  interval_cases d <;> rfl

theorem foldl_toDigitsCore (fuel : Nat) :
    ∀ (n : Nat) (ds : List Char), n < fuel →
      List.foldl (fun acc c => acc * 10 + (c.toNat - 48)) 0 (Nat.toDigitsCore 10 fuel n ds)
        = List.foldl (fun acc c => acc * 10 + (c.toNat - 48)) n ds := by
  induction fuel with
  | zero => intro n ds h; omega
  | succ fuel ih =>
    intro n ds h
    simp only [Nat.toDigitsCore]
    split
    · rename_i h0
      have hn : n < 10 := by omega
      simp only [List.foldl_cons, Nat.zero_mul, Nat.zero_add]
      rw [digitChar_value _ (Nat.mod_lt _ (by norm_num)), Nat.mod_eq_of_lt hn]
    · rename_i h0
      rw [ih (n / 10) _ (by omega)]
      simp only [List.foldl_cons]
      rw [digitChar_value _ (Nat.mod_lt _ (by norm_num))]
      congr 1
      omega

theorem decimalValue_repr (n : Nat) : decimalValue (Nat.repr n).data = n := by
  simp only [decimalValue, Nat.repr, Nat.toDigits, List.asString]
  exact foldl_toDigitsCore (n + 1) n [] (Nat.lt_succ_self n)

theorem repr_injective {m n : Nat} (h : Nat.repr m = Nat.repr n) : m = n := by
  have := congrArg (fun s => decimalValue s.data) h
  simpa [decimalValue_repr] using this

theorem wellFormed_publish (s : Session) (h : s.WellFormed) : (s.publish).2.WellFormed := by
  obtain ⟨hp, hn, hs⟩ := h
  unfold Session.publish
  split
  · refine ⟨?_, ?_, ?_⟩
    · intro id hid
      simp only [List.mem_cons] at hid
      rcases hid with rfl | hid
      · exact ⟨s.nextId, Nat.lt_succ_self _, rfl⟩
      · obtain ⟨k, hk, rfl⟩ := hp id hid
        exact ⟨k, Nat.lt_succ_of_lt hk, rfl⟩
    · refine List.nodup_cons.mpr ⟨?_, hn⟩
      intro hmem
      obtain ⟨k, hk, hrepr⟩ := hp _ hmem
      have := repr_injective hrepr
      omega
    · intro hne
      rename_i hc
      exact absurd hc hne
  · exact ⟨hp, hn, hs⟩

theorem wellFormed_resolve (id : String) (s : Session) (h : s.WellFormed) :
    (s.resolve id).WellFormed := by
  obtain ⟨hp, hn, hs⟩ := h
  refine ⟨?_, ?_, ?_⟩
  · intro x hx
    exact hp x (List.mem_of_mem_erase hx)
  · exact hn.erase id
  · intro hne
    simp [Session.resolve, hs hne]

theorem wellFormed_disconnect (s : Session) (h : s.WellFormed) :
    (s.disconnect).2.WellFormed := by
  unfold Session.disconnect
  split
  · exact ⟨by simp, by simp, by simp⟩
  · exact h

theorem wellFormed_stepEvent (w : World Session Ext Data) (ev : Event Data)
    (h : w.st.WellFormed) : (stepEvent w ev).st.WellFormed := by
  cases ev with
  | publish channel data => exact wellFormed_publish w.st h
  | response id => exact wellFormed_resolve id w.st h
  | disconnect => exact wellFormed_disconnect w.st h

theorem wellFormed_foldl (events : List (Event Data)) (w : World Session Ext Data)
    (h : w.st.WellFormed) : (events.foldl stepEvent w).st.WellFormed := by
  induction events generalizing w with
  | nil => exact h
  | cons ev rest ih => exact ih _ (wellFormed_stepEvent w ev h)

theorem wellFormed_runEvents (Ext : Type) (url : String) (events : List (Event Data)) :
    (runEvents Ext url events).st.WellFormed := by
  unfold runEvents
  apply wellFormed_foldl
  refine ⟨?_, ?_, ?_⟩ <;>
    simp [NewClient, Transport.callInit, Transport.callHandshake, Transport.callConnect,
      specTransport, defaultOpts, applyOpts, Session.initial]

/-- C7: on a client over the modelled transport (ids taken from a monotonic
counter, a `PendingPublish` per publish, removed by its response or by
disconnect), after `NewClient` and any sequence of publishes, responses and
disconnects, the id returned by the next `Publish` differs from the id of every
publish still pending at that moment, and no id is pending twice. -/
theorem C7_publish_id_not_pending (Ext Data : Type) (url : String)
    (events : List (Event Data)) (channel : String) (data : Data) :
    (NewClient (specTransport Ext Data) url [] { trace := [], st := Session.initial }).1
      = (some (specClient Ext Data), none) ∧
    ((specClient Ext Data).Publish channel data (runEvents Ext url events)).1.1
      ∉ (runEvents Ext url events).st.pending ∧
    (runEvents Ext url events).st.pending.Nodup := by
  obtain ⟨hp, hn, hs⟩ := wellFormed_runEvents Ext url events
  refine ⟨rfl, ?_, hn⟩
  simp only [Client.Publish, Transport.callPublish, specClient, defaultOpts, specTransport,
    Session.publish]
  split
  · intro hmem
    obtain ⟨k, hk, hrepr⟩ := hp _ hmem
    have := repr_injective hrepr
    omega
  · rename_i hne
    rw [hs hne]
    simp

end fayec
